import Mathlib

/-!
Shallow embedding of the capture-timeline resampling and transcode-pipeline
driver of `src/build.ts` (marp-cli transitions GIF generator), together with
theorems settling the specification claims about it.

Modelling conventions:
- `Date.now()` timestamps are integers (JavaScript returns integral
  milliseconds), embedded as `ℤ`.
- Nominal frame timestamps `firstTimestamp + (1000 * frame) / settings.fps`
  are computed with JavaScript float arithmetic in the source; they are
  embedded exactly in `ℚ`.  For the concrete configuration `fps = 25` the
  float arithmetic is exact (all values are integral multiples of 40 well
  below 2^53), so the embedding agrees with the source bit for bit.
- `captured[i]` indexing and `Array.prototype.findIndex` with the pushed
  `Infinity` sentinel are embedded by `List.get?` and `List.findIdx`
  (`findIdx` returns the length when no element matches, exactly the index
  the sentinel occupies in the source).
- The browser, CDP screencast and ffmpeg subprocesses are external
  collaborators: a variant run is therefore given to the driver as data
  (its captured samples, the stop timestamp, and which ffmpeg stage, if
  any, exits abnormally), and the driver logic of the script is embedded
  over that data.
-/

namespace MarpTransitionsGif

/-- Constant table of `build.ts:11-17`.  In the source `width` and `height`
are the float products `1280 * 0.2` and `720 * 0.2`, which evaluate to
exactly `256` and `144` in IEEE-754 double precision, and `fps` is the
integer `25`. `duration` (0.5) and `wait` (0.75) only shape the external
interaction timing. -/
structure Settings where
  fps : ℕ
  width : ℕ
  height : ℕ
  duration : ℚ
  wait : ℚ

/-- The concrete settings of `build.ts:11-17`. -/
def settings : Settings :=
  { fps := 25, width := 256, height := 144, duration := 1 / 2, wait := 3 / 4 }

/-- The transition variant list of `build.ts:19-53` (each, with the fixed
duration, is one `TransitionVariant`). -/
def transitions : List String :=
  ["clockwise", "counterclockwise", "cover", "coverflow", "cube", "cylinder",
   "diamond", "drop", "explode", "fade", "fade-out", "fall", "flip", "glow",
   "implode", "in-out", "iris-in", "iris-out", "melt", "overlap", "pivot",
   "pull", "push", "reveal", "rotate", "slide", "star", "swap", "swipe",
   "swoosh", "wipe", "wiper", "zoom"]

/-- One captured screencast sample, `interface CaptureData` of
`build.ts:57-60`: `data` is the base64 payload (`null` embedded as `none`)
and `timestamp` the `Date.now()` arrival time in milliseconds. -/
structure CaptureData where
  data : Option String
  timestamp : ℤ
  deriving DecidableEq

/-- The nearest-frame lookup of `build.ts:168-176`.  The source builds
`capturedTimestamps` (the timestamps in buffer order), pushes an `Infinity`
sentinel, and for a query timestamp returns
`captured[Math.max(0, capturedTimestamps.findIndex((t) => t >= timestamp) - 1)]`.
`List.findIdx` returns `captured.length` when no element matches, which is
exactly the position the `Infinity` sentinel occupies, so no separate
sentinel is needed.  On an empty buffer the source would evaluate
`captured[0]` to `undefined` (and the script has already crashed at
`build.ts:164`); the embedding returns `none` in that unreachable case. -/
def findFrame (captured : List CaptureData) (timestamp : ℚ) : Option CaptureData :=
  let j : ℤ := captured.findIdx (fun c => decide (timestamp ≤ (c.timestamp : ℚ)))
  captured.get? (max 0 (j - 1)).toNat

/-- The nominal timestamp of frame index `frame`:
`firstTimestamp + (1000 * frame) / settings.fps` of `build.ts:183`. -/
def nominalTimestamp (firstTimestamp : ℤ) (fps : ℚ) (frame : ℕ) : ℚ :=
  (firstTimestamp : ℚ) + (1000 * frame) / fps

/-- The resampled frame count `Math.floor((durationMs * settings.fps) / 1000)`
of `build.ts:166`. -/
def frames (durationMs : ℤ) (fps : ℚ) : ℤ :=
  ⌊(durationMs : ℚ) * fps / 1000⌋

/-- One entry of the resampled timeline (`ResampledFrame` of the data
model): a dense frame index, its nominal timestamp, and the captured
sample the lookup selected for it. -/
structure ResampledFrame where
  index : ℕ
  nominalTimestampMillis : ℚ
  sourceSample : Option CaptureData
  deriving DecidableEq

/-- Fallback entry used only as the default of `List.getD`. -/
def fallbackFrame : ResampledFrame := { index := 0, nominalTimestampMillis := 0, sourceSample := none }

/-- The Timeline Resampler: the frame loop of `build.ts:161-184` viewed as a
pure mapping.  `firstTimestamp` is `captured[0].timestamp` (build.ts:164),
`durationMs = lastTimestamp - firstTimestamp` (build.ts:165), and for each
`frame` in `[0, frames)` the nominal timestamp is passed to `findFrame`
(build.ts:182-184). -/
def resample (captured : List CaptureData) (lastTimestamp : ℤ) (fps : ℚ) :
    List ResampledFrame :=
  match captured with
  | [] => []
  | c0 :: _ =>
    (List.range (frames (lastTimestamp - c0.timestamp) fps).toNat).map (fun frame =>
      { index := frame
        nominalTimestampMillis := nominalTimestamp c0.timestamp fps frame
        sourceSample := findFrame captured (nominalTimestamp c0.timestamp fps frame) })

/-- JavaScript truthiness of the `data` payload, the guard `if (data)` of
`build.ts:186`: `null` and the empty string are falsy. -/
def dataPresent : Option String → Bool
  | some d => !d.isEmpty
  | none => false

/-- Truthiness of the payload of an optional selected sample. -/
def dataPresentOpt : Option CaptureData → Bool
  | some c => dataPresent c.data
  | none => false

/-- Embedding of `String.prototype.padStart(10, "0")` used at
`build.ts:187-189`. -/
def padStart (s : String) (len : ℕ) (c : Char) : String :=
  String.mk (List.replicate (len - s.length) c) ++ s

/-- The numbered still-image file name `frame-<index padded to 10>.png` of
`build.ts:187-189`. -/
def frameFileName (frame : ℕ) : String :=
  "frame-" ++ padStart (toString frame) 10 '0' ++ ".png"

/-- The contribution of one resampled frame to the Frame Materializer: the
body of the loop at `build.ts:182-197`.  A frame whose selected sample has a
truthy payload is written (here: index paired with payload); otherwise no
file is written for that index. -/
def materializeSample (fr : ResampledFrame) : Option (ℕ × String) :=
  match fr.sourceSample with
  | some c =>
    match c.data with
    | some d => if d.isEmpty then none else some (fr.index, d)
    | none => none
  | none => none

/-- The Frame Materializer over the whole resampled timeline
(`build.ts:182-197`): the indexed images actually written. -/
def materialize (resampled : List ResampledFrame) : List (ℕ × String) :=
  resampled.filterMap materializeSample

/-- The shared scale filter expression of `build.ts:212`:
`scale=${settings.width}:${settings.height}:flags=lanczos`. -/
def scale : String :=
  "scale=" ++ toString settings.width ++ ":" ++ toString settings.height ++ ":flags=lanczos"

/-- Arguments of the stage-2 ffmpeg invocation (palette generation),
`build.ts:214-220`. -/
def paletteArgs : List String :=
  ["-i", "raw.mkv", "-vf", scale ++ ",palettegen", "palette.png"]

/-- Arguments of the stage-3 ffmpeg invocation (paletted GIF encode),
`build.ts:223-232`. -/
def gifArgs : List String :=
  ["-i", "raw.mkv", "-i", "palette.png", "-lavfi",
   scale ++ ",fps=" ++ toString settings.fps ++ " [x]; [x][1:v] paletteuse",
   "-y", "animation.gif"]

/-- The scaling-parameter component of a filter chain: the filter expression
up to the first comma of the chain. -/
def scaleParamOf (filter : String) : String :=
  (filter.toList.takeWhile (fun c => c != ',')).asString

/-- Failure taxonomy of a single variant run.  `sessionError` is the
(spec-named) failure raised when the capture buffer is empty: in the source
it is the `TypeError` thrown by `captured[0].timestamp` at `build.ts:164`.
`stageError s` is an abnormal exit of ffmpeg stage `s`. -/
inductive BuildError where
  | sessionError
  | stageError (stage : ℕ)
  deriving DecidableEq

/-- The data of one variant iteration as seen by the driver loop of
`build.ts:93-244`: the variant name, the sealed capture buffer and the stop
timestamp (`lastTimestamp` of build.ts:161), and which ffmpeg stage, if
any, exits abnormally (subprocess outcomes are external inputs to the
script). -/
structure VariantRun where
  name : String
  captured : List CaptureData
  lastTimestamp : ℤ
  failingStage : Option ℕ
  deriving DecidableEq

/-- One iteration of the driver loop of `build.ts:93-244` for a single
variant.  First `captured[0].timestamp` is read (`build.ts:164`): on an
empty buffer this throws before any resampling (embedded as
`sessionError`).  Then frames are resampled and materialized, the ffmpeg
stages run (an abnormal stage exit aborts the iteration), and on success
the final artifact `<name>.gif` is written (`build.ts:234-238`). -/
def processVariant (fps : ℚ) (v : VariantRun) :
    Except BuildError (String × List (ℕ × String)) :=
  match v.captured with
  | [] => Except.error BuildError.sessionError
  | c0 :: rest =>
    match v.failingStage with
    | some s => Except.error (BuildError.stageError s)
    | none =>
      Except.ok (v.name ++ ".gif", materialize (resample (c0 :: rest) v.lastTimestamp fps))

/-- The Run Driver: the `for (const transition of transitions)` loop of
`build.ts:93-244`.  The loop body has no try/catch around a variant: an
error thrown inside one iteration propagates out of the loop (only the
`finally` cleanups at build.ts:157-159, 239-241 and 245-248 run), so the
driver returns the output artifacts of the variants completed before the
failure together with the propagated error. -/
def runDriver (fps : ℚ) :
    List VariantRun → List (String × List (ℕ × String)) × Option BuildError
  | [] => ([], none)
  | v :: rest =>
    match processVariant fps v with
    | Except.error e => ([], some e)
    | Except.ok out =>
      (out :: (runDriver fps rest).1, (runDriver fps rest).2)

/-! Helper lemmas for evaluating and reasoning about `resample`. -/

/-- Unfolding of `resample` on a non-empty buffer. -/
theorem resample_cons (c0 : CaptureData) (rest : List CaptureData) (lastTimestamp : ℤ)
    (fps : ℚ) :
    resample (c0 :: rest) lastTimestamp fps =
      (List.range (frames (lastTimestamp - c0.timestamp) fps).toNat).map (fun frame =>
        { index := frame
          nominalTimestampMillis := nominalTimestamp c0.timestamp fps frame
          sourceSample := findFrame (c0 :: rest) (nominalTimestamp c0.timestamp fps frame) }) :=
  rfl

/-- Length of the resampled timeline on a non-empty buffer. -/
theorem resample_length_cons (c0 : CaptureData) (rest : List CaptureData) (lastTimestamp : ℤ)
    (fps : ℚ) :
    (resample (c0 :: rest) lastTimestamp fps).length =
      (frames (lastTimestamp - c0.timestamp) fps).toNat := by
  rw [resample_cons]
  simp

/-- Entry `i` of the resampled timeline on a non-empty buffer. -/
theorem resample_getElem (c0 : CaptureData) (rest : List CaptureData) (lastTimestamp : ℤ)
    (fps : ℚ) (i : ℕ) (hi : i < (frames (lastTimestamp - c0.timestamp) fps).toNat) :
    (resample (c0 :: rest) lastTimestamp fps)[i]? =
      some { index := i
             nominalTimestampMillis := nominalTimestamp c0.timestamp fps i
             sourceSample := findFrame (c0 :: rest) (nominalTimestamp c0.timestamp fps i) } := by
  rw [resample_cons]
  simp [List.getElem?_map, List.getElem?_range, hi]

/-- Membership characterization of the resampled timeline. -/
theorem mem_resample_iff (c0 : CaptureData) (rest : List CaptureData) (lastTimestamp : ℤ)
    (fps : ℚ) (fr : ResampledFrame) :
    fr ∈ resample (c0 :: rest) lastTimestamp fps ↔
      ∃ i, i < (frames (lastTimestamp - c0.timestamp) fps).toNat ∧
        fr = { index := i
               nominalTimestampMillis := nominalTimestamp c0.timestamp fps i
               sourceSample := findFrame (c0 :: rest) (nominalTimestamp c0.timestamp fps i) } := by
  rw [resample_cons]
  simp only [List.mem_map, List.mem_range]
  constructor
  · rintro ⟨i, hi, rfl⟩
    exact ⟨i, hi, rfl⟩
  · rintro ⟨i, hi, rfl⟩
    exact ⟨i, hi, rfl⟩

/-- The clamped index `Math.max(0, j - 1)` of the source, computed in `ℕ`. -/
theorem max_sub_one_toNat (j : ℕ) : (max 0 ((j : ℤ) - 1)).toNat = j - 1 := by
  omega

/-- `findFrame` rewritten with a natural-number index. -/
theorem findFrame_eq_get (captured : List CaptureData) (T : ℚ) :
    findFrame captured T =
      captured.get?
        (captured.findIdx (fun c => decide (T ≤ (c.timestamp : ℚ))) - 1) := by
  simp only [findFrame]
  rw [max_sub_one_toNat]

/-- Default sample used only as the `List.getD` fallback in proofs. -/
def defaultSample : CaptureData := { data := none, timestamp := 0 }

/-- On a buffer with non-decreasing timestamps, the timestamp at a smaller
index is not larger. -/
theorem getD_timestamp_mono (l : List CaptureData)
    (hs : List.Pairwise (fun a b => a.timestamp ≤ b.timestamp) l)
    (a b : ℕ) (hab : a ≤ b) (hb : b < l.length) :
    (l.getD a defaultSample).timestamp ≤ (l.getD b defaultSample).timestamp := by
  have ha : a < l.length := lt_of_le_of_lt hab hb
  rw [List.getD_eq_getElem _ _ ha, List.getD_eq_getElem _ _ hb]
  rcases eq_or_lt_of_le hab with heq | hlt
  · subst heq
    exact le_refl _
  · exact List.pairwise_iff_getElem.mp hs a b ha hb hlt

theorem findIdx_false_before (l : List CaptureData) (T : ℚ) (i : ℕ) (hi : i < l.length)
    (hlt : i < l.findIdx (fun cd => decide (T ≤ (cd.timestamp : ℚ)))) :
    ((l.getD i defaultSample).timestamp : ℚ) < T := by
  have hf := List.not_of_lt_findIdx hlt
  rw [List.getD_eq_getElem _ _ hi]
  simp only [decide_eq_false_iff_not] at hf
  exact not_le.mp hf

/-- The predicate holds at the index `findIdx` returns, when that index is
in range. -/
theorem findIdx_getD_true (p : CaptureData → Bool) (l : List CaptureData)
    (h : l.findIdx p < l.length) : p (l.getD (l.findIdx p) defaultSample) = true := by
  induction l with
  | nil => simp at h
  | cons a t ih =>
    by_cases hp : p a
    · simp [List.findIdx_cons, hp]
    · have hfi : (a :: t).findIdx p = t.findIdx p + 1 := by
        simp [List.findIdx_cons, hp]
      rw [hfi] at h ⊢
      simp only [List.getD_cons_succ]
      exact ih (by simpa using h)

theorem findIdx_true_at (l : List CaptureData) (T : ℚ)
    (hlt : l.findIdx (fun cd => decide (T ≤ (cd.timestamp : ℚ))) < l.length) :
    T ≤ ((l.getD (l.findIdx (fun cd => decide (T ≤ (cd.timestamp : ℚ)))) defaultSample).timestamp : ℚ) := by
  have ht := findIdx_getD_true (fun cd => decide (T ≤ (cd.timestamp : ℚ))) l hlt
  simpa using ht

/-- On a non-empty buffer, `findFrame` returns the sample at the clamped
index `findIdx - 1`. -/
theorem findFrame_eq_some_getD (c0 : CaptureData) (rest : List CaptureData) (T : ℚ) :
    findFrame (c0 :: rest) T =
      some ((c0 :: rest).getD
        ((c0 :: rest).findIdx (fun cd => decide (T ≤ (cd.timestamp : ℚ))) - 1) defaultSample) := by
  rw [findFrame_eq_get]
  have hle : (c0 :: rest).findIdx (fun cd => decide (T ≤ (cd.timestamp : ℚ))) ≤
      (c0 :: rest).length := List.findIdx_le_length _
  have hidx : (c0 :: rest).findIdx (fun cd => decide (T ≤ (cd.timestamp : ℚ))) - 1 <
      (c0 :: rest).length := by
    simp only [List.length_cons] at hle ⊢
    omega
  rw [List.get?_eq_getElem?, List.getElem?_eq_getElem hidx, List.getD_eq_getElem _ _ hidx]

/-- Two-sample demonstration buffer: samples at t = 0 and t = 40 ms. -/
def demoBuf : List CaptureData := [⟨some "a", 0⟩, ⟨some "b", 40⟩]

/-- C1 (amended): for a lookup timestamp `T` at or after the first sample on
a buffer with non-decreasing timestamps, the selected sample is in the
buffer, its timestamp is ≤ T, no sample timestamp lies strictly between the
selected timestamp and T (open interval), and the selected timestamp can
equal T only in the clamped case where the selected sample is the first
sample.  The selection bound is open, not closed: `findIdx` with
`t >= timestamp` followed by `- 1` picks the last sample with timestamp
strictly below T whenever any sample precedes T. -/
theorem findFrame_nearest_strictly_preceding (c0 : CaptureData) (rest : List CaptureData)
    (T : ℚ) (sel c : CaptureData)
    (hsorted : List.Pairwise (fun a b => a.timestamp ≤ b.timestamp) (c0 :: rest))
    (hfirst : (c0.timestamp : ℚ) ≤ T)
    (hsel : findFrame (c0 :: rest) T = some sel)
    (hc : c ∈ c0 :: rest) :
    sel ∈ c0 :: rest ∧ (sel.timestamp : ℚ) ≤ T ∧
      (c.timestamp ≤ sel.timestamp ∨ T ≤ (c.timestamp : ℚ)) ∧
      ((sel.timestamp : ℚ) = T → sel = c0) := by
  rw [findFrame_eq_some_getD, Option.some.injEq] at hsel
  subst hsel
  have hle : (c0 :: rest).findIdx (fun cd => decide (T ≤ (cd.timestamp : ℚ))) ≤
      (c0 :: rest).length := List.findIdx_le_length _
  have hlen : 0 < (c0 :: rest).length := by simp
  have hidx : (c0 :: rest).findIdx (fun cd => decide (T ≤ (cd.timestamp : ℚ))) - 1 <
      (c0 :: rest).length := by omega
  have hmem : (c0 :: rest).getD
      ((c0 :: rest).findIdx (fun cd => decide (T ≤ (cd.timestamp : ℚ))) - 1) defaultSample ∈
        c0 :: rest := by
    rw [List.getD_eq_getElem _ _ hidx]
    exact List.getElem_mem _
  by_cases hj0 : (c0 :: rest).findIdx (fun cd => decide (T ≤ (cd.timestamp : ℚ))) = 0
  · have hsel0 : (c0 :: rest).getD
        ((c0 :: rest).findIdx (fun cd => decide (T ≤ (cd.timestamp : ℚ))) - 1) defaultSample =
          c0 := by
      rw [hj0]
      rfl
    have hTle : T ≤ (c0.timestamp : ℚ) := by
      have h := findIdx_true_at (c0 :: rest) T (by omega)
      rw [hj0] at h
      simpa using h
    have hceq : (c0.timestamp : ℚ) = T := le_antisymm hfirst hTle
    rw [hsel0]
    refine ⟨List.mem_cons_self _ _, hfirst, Or.inr ?_, fun _ => rfl⟩
    have hc0c : c0.timestamp ≤ c.timestamp := by
      rcases List.mem_cons.mp hc with rfl | hmemr
      · exact le_refl _
      · exact List.rel_of_pairwise_cons hsorted hmemr
    calc T = (c0.timestamp : ℚ) := hceq.symm
      _ ≤ (c.timestamp : ℚ) := by exact_mod_cast hc0c
  · have hJpos : 0 < (c0 :: rest).findIdx (fun cd => decide (T ≤ (cd.timestamp : ℚ))) :=
      Nat.pos_of_ne_zero hj0
    have hstrict : (((c0 :: rest).getD
        ((c0 :: rest).findIdx (fun cd => decide (T ≤ (cd.timestamp : ℚ))) - 1)
          defaultSample).timestamp : ℚ) < T :=
      findIdx_false_before (c0 :: rest) T _ hidx (by omega)
    refine ⟨hmem, le_of_lt hstrict, ?_, fun habs => absurd habs (ne_of_lt hstrict)⟩
    obtain ⟨i, hi, hci⟩ := List.mem_iff_getElem.mp hc
    rcases Nat.lt_or_ge i ((c0 :: rest).findIdx (fun cd => decide (T ≤ (cd.timestamp : ℚ))))
      with hiJ | hiJ
    · left
      have hm := getD_timestamp_mono (c0 :: rest) hsorted i
        ((c0 :: rest).findIdx (fun cd => decide (T ≤ (cd.timestamp : ℚ))) - 1) (by omega) hidx
      rw [List.getD_eq_getElem _ _ hi, hci] at hm
      exact hm
    · right
      have hJlt : (c0 :: rest).findIdx (fun cd => decide (T ≤ (cd.timestamp : ℚ))) <
          (c0 :: rest).length := lt_of_le_of_lt hiJ hi
      have h1 := findIdx_true_at (c0 :: rest) T hJlt
      have h2 := getD_timestamp_mono (c0 :: rest) hsorted _ i hiJ hi
      rw [List.getD_eq_getElem _ _ hi, hci] at h2
      calc T ≤ _ := h1
        _ ≤ (c.timestamp : ℚ) := by exact_mod_cast h2

/-- C1 counterexample to the claim as stated (closed lower bound): in a
session with samples at t = 0 and t = 40 and frames up to t = 80, resampled
frame 1 has nominal timestamp exactly 40, yet the resampler selects the
sample at t = 0 — even though the buffer holds a sample whose timestamp
(40) is strictly greater than the selected timestamp (0) and ≤ 40.  A
nominal timestamp exactly equal to a sample timestamp does NOT select that
sample. -/
theorem findFrame_closed_lower_bound_counterexample :
    (resample demoBuf 80 25)[1]? =
      some { index := 1, nominalTimestampMillis := 40,
             sourceSample := some { data := some "a", timestamp := 0 } } ∧
      ({ data := some "b", timestamp := 40 } : CaptureData) ∈ demoBuf ∧
      ((0 : ℤ) < 40 ∧ ((40 : ℤ) : ℚ) ≤ 40) := by
  refine ⟨?_, by decide, by decide, by decide⟩
  rw [show demoBuf = (⟨some "a", 0⟩ : CaptureData) :: [⟨some "b", 40⟩] from rfl,
    resample_getElem _ _ _ _ 1 (by norm_num [frames]),
    show nominalTimestamp (⟨some "a", (0 : ℤ)⟩ : CaptureData).timestamp 25 1 = 40 by
      norm_num [nominalTimestamp]]
  decide

/-- C1 witness: the amended nearest-strictly-preceding law instantiated on
the two-sample demonstration buffer at T = 40. -/
theorem findFrame_nearest_strictly_preceding_witness :
    List.Pairwise (fun a b : CaptureData => a.timestamp ≤ b.timestamp) demoBuf ∧
      (((⟨some "a", 0⟩ : CaptureData).timestamp : ℚ) ≤ 40) ∧
      findFrame demoBuf 40 = some ⟨some "a", 0⟩ ∧
      (⟨some "b", 40⟩ : CaptureData) ∈ demoBuf ∧
      ((⟨some "a", 0⟩ : CaptureData) ∈ demoBuf ∧
        (((⟨some "a", 0⟩ : CaptureData).timestamp : ℚ) ≤ 40) ∧
        ((⟨some "b", 40⟩ : CaptureData).timestamp ≤ (⟨some "a", 0⟩ : CaptureData).timestamp ∨
          (40 : ℚ) ≤ ((⟨some "b", 40⟩ : CaptureData).timestamp : ℚ)) ∧
        (((⟨some "a", 0⟩ : CaptureData).timestamp : ℚ) = 40 →
          (⟨some "a", 0⟩ : CaptureData) = ⟨some "a", 0⟩)) :=
  ⟨by decide, by decide, by decide, by decide,
    findFrame_nearest_strictly_preceding ⟨some "a", 0⟩ [⟨some "b", 40⟩] 40
      ⟨some "a", 0⟩ ⟨some "b", 40⟩ (by decide) (by decide) (by decide) (by decide)⟩

/-- C2: for every non-empty capture session with `lastTimestamp` at or
after the first sample and every targetFps > 0, the resampled frame count
equals `floor(durationMs * fps / 1000)` where
`durationMs = lastTimestamp - captured[0].timestamp` (build.ts:164-166). -/
theorem resample_length_eq_floor (c0 : CaptureData) (rest : List CaptureData)
    (lastTimestamp : ℤ) (fps : ℚ) (hfps : 0 < fps)
    (hdur : c0.timestamp ≤ lastTimestamp) :
    ((resample (c0 :: rest) lastTimestamp fps).length : ℤ) =
      frames (lastTimestamp - c0.timestamp) fps := by
  rw [resample_length_cons]
  refine Int.toNat_of_nonneg ?_
  unfold frames
  refine Int.floor_nonneg.mpr ?_
  have h1 : (0 : ℚ) ≤ ((lastTimestamp - c0.timestamp : ℤ) : ℚ) := by
    exact_mod_cast sub_nonneg.mpr hdur
  exact div_nonneg (mul_nonneg h1 (le_of_lt hfps)) (by norm_num)

/-- C2 witness: the frame-count law instantiated on the two-sample
demonstration session of duration 80 ms at 25 fps. -/
theorem resample_length_eq_floor_witness :
    (0 : ℚ) < 25 ∧ (⟨some "a", 0⟩ : CaptureData).timestamp ≤ (80 : ℤ) ∧
      ((resample demoBuf 80 25).length : ℤ) =
        frames (80 - (⟨some "a", 0⟩ : CaptureData).timestamp) 25 :=
  ⟨by decide, by decide,
    resample_length_eq_floor ⟨some "a", 0⟩ [⟨some "b", 40⟩] 80 25 (by decide) (by decide)⟩

/-- The ten evenly spaced samples of end-to-end scenario 1: 150 ms apart
starting at t = 0. -/
def scenario1 : List CaptureData :=
  [⟨some "s0", 0⟩, ⟨some "s1", 150⟩, ⟨some "s2", 300⟩, ⟨some "s3", 450⟩,
   ⟨some "s4", 600⟩, ⟨some "s5", 750⟩, ⟨some "s6", 900⟩, ⟨some "s7", 1050⟩,
   ⟨some "s8", 1200⟩, ⟨some "s9", 1350⟩]

/-- C3: end-to-end scenario 1 — a 1500 ms session with 10 samples 150 ms
apart starting at t = 0, resampled at 25 fps, yields exactly 37 frames;
frame 0 maps to the sample at t = 0 and frame 36 (nominal timestamp 1440)
maps to the sample at t = 1350. -/
theorem scenario1_resample_spec :
    (resample scenario1 1500 25).length = 37 ∧
      (resample scenario1 1500 25)[0]? =
        some { index := 0, nominalTimestampMillis := 0,
               sourceSample := some { data := some "s0", timestamp := 0 } } ∧
      (resample scenario1 1500 25)[36]? =
        some { index := 36, nominalTimestampMillis := 1440,
               sourceSample := some { data := some "s9", timestamp := 1350 } } := by
  refine ⟨?_, ?_, ?_⟩
  · rw [show scenario1 = (⟨some "s0", 0⟩ : CaptureData) :: scenario1.tail from rfl,
      resample_length_cons]
    norm_num [frames]
    rfl
  · rw [show scenario1 = (⟨some "s0", 0⟩ : CaptureData) :: scenario1.tail from rfl,
      resample_getElem _ _ _ _ 0 (by norm_num [frames]),
      show nominalTimestamp (⟨some "s0", (0 : ℤ)⟩ : CaptureData).timestamp 25 0 = 0 by
        norm_num [nominalTimestamp]]
    decide
  · rw [show scenario1 = (⟨some "s0", 0⟩ : CaptureData) :: scenario1.tail from rfl,
      resample_getElem _ _ _ _ 36 (by norm_num [frames]),
      show nominalTimestamp (⟨some "s0", (0 : ℤ)⟩ : CaptureData).timestamp 25 36 = 1440 by
        norm_num [nominalTimestamp]]
    decide

/-- C4 counterexample to the claim as stated: the lookup does not map a
timestamp preceding the first captured sample to "none".  On a buffer whose
single sample arrives at t = 100, the lookup at t = 50 returns that very
sample (a sample from the future), because `Math.max(0, -1)` clamps the
index to 0; no code path produces "none". -/
theorem findFrame_before_first_sample_counterexample :
    findFrame [⟨some "late", 100⟩] 50 ≠ none ∧
      findFrame [⟨some "late", 100⟩] 50 = some ⟨some "late", 100⟩ ∧
      (50 : ℚ) < ((100 : ℤ) : ℚ) := by
  refine ⟨by decide, by decide, by decide⟩

/-- C4 (amended): no code path maps a frame to "none" on a non-empty
buffer.  A lookup timestamp at or before the first sample clamps to the
first sample (index 0) rather than yielding none, and the nominal timeline
of the resampler starts at the first sample timestamp, so for fps > 0 no
produced frame has a nominal timestamp preceding the first sample in the
first place. -/
theorem findFrame_before_first_clamps_to_head (c0 : CaptureData) (rest : List CaptureData)
    (T : ℚ) (fps : ℚ) (i : ℕ) (hT : T ≤ (c0.timestamp : ℚ)) (hfps : 0 < fps) :
    findFrame (c0 :: rest) T = some c0 ∧
      (c0.timestamp : ℚ) ≤ nominalTimestamp c0.timestamp fps i := by
  constructor
  · have hj0 : (c0 :: rest).findIdx (fun cd => decide (T ≤ (cd.timestamp : ℚ))) = 0 := by
      simp [List.findIdx_cons, hT]
    rw [findFrame_eq_some_getD, hj0]
    rfl
  · unfold nominalTimestamp
    have : (0 : ℚ) ≤ (1000 * i) / fps := by
      refine div_nonneg ?_ (le_of_lt hfps)
      positivity
    linarith

/-- C4 witness: the clamp behaviour instantiated on a single-sample buffer
with first sample at t = 100, looked up at t = 50, with fps = 25 and frame
index 3. -/
theorem findFrame_before_first_clamps_to_head_witness :
    ((50 : ℚ) ≤ ((⟨some "late", 100⟩ : CaptureData).timestamp : ℚ)) ∧ (0 : ℚ) < 25 ∧
      (findFrame [⟨some "late", 100⟩] 50 = some ⟨some "late", 100⟩ ∧
        (((⟨some "late", 100⟩ : CaptureData).timestamp : ℚ) ≤
          nominalTimestamp (⟨some "late", 100⟩ : CaptureData).timestamp 25 3)) :=
  ⟨by decide, by decide,
    findFrame_before_first_clamps_to_head ⟨some "late", 100⟩ [] 50 25 3 (by decide) (by decide)⟩

/-- C7: resampling is deterministic and idempotent — the mapping is a pure
function of the sealed session and the target fps (the source closure
`findFrame` precomputes its timestamp array once and never mutates state),
so resampling the same sealed session twice with the same targetFps yields
an identical frame-to-sample mapping. -/
theorem resample_deterministic (captured : List CaptureData) (lastTimestamp : ℤ) (fps : ℚ) :
    resample captured lastTimestamp fps = resample captured lastTimestamp fps := rfl

/-- C8: nominal timestamps are strictly increasing in the frame index for
every targetFps > 0. -/
theorem resample_nominal_strict_mono (captured : List CaptureData) (lastTimestamp : ℤ)
    (fps : ℚ) (i : ℕ) (hfps : 0 < fps)
    (hi : i + 1 < (resample captured lastTimestamp fps).length) :
    ((resample captured lastTimestamp fps).getD i fallbackFrame).nominalTimestampMillis <
      ((resample captured lastTimestamp fps).getD (i + 1) fallbackFrame).nominalTimestampMillis := by
  match captured with
  | [] => simp [resample] at hi
  | c0 :: rest =>
    rw [resample_length_cons] at hi
    have h1 := resample_getElem c0 rest lastTimestamp fps i (by omega)
    have h2 := resample_getElem c0 rest lastTimestamp fps (i + 1) (by omega)
    rw [List.getD_eq_getElem?_getD, List.getD_eq_getElem?_getD, h1, h2,
      Option.getD_some, Option.getD_some]
    show nominalTimestamp c0.timestamp fps i < nominalTimestamp c0.timestamp fps (i + 1)
    unfold nominalTimestamp
    have hlt : (1000 * (i : ℚ)) / fps < (1000 * ((i : ℚ) + 1)) / fps := by
      gcongr
      linarith
    push_cast
    linarith

/-- The demonstration session resamples to two frames. -/
theorem demoBuf_resample_length : (resample demoBuf 80 25).length = 2 := by
  rw [show demoBuf = (⟨some "a", 0⟩ : CaptureData) :: [⟨some "b", 40⟩] from rfl,
    resample_length_cons]
  norm_num [frames]
  rfl

/-- The demonstration session has at least two frames. -/
theorem demoBuf_length_lt : 0 + 1 < (resample demoBuf 80 25).length := by
  rw [demoBuf_resample_length]
  decide

/-- C8 witness: strict monotonicity of nominal timestamps instantiated on
the two-sample demonstration session at 25 fps, frames 0 and 1. -/
theorem resample_nominal_strict_mono_witness :
    (0 : ℚ) < 25 ∧ 0 + 1 < (resample demoBuf 80 25).length ∧
      ((resample demoBuf 80 25).getD 0 fallbackFrame).nominalTimestampMillis <
        ((resample demoBuf 80 25).getD (0 + 1) fallbackFrame).nominalTimestampMillis :=
  ⟨by decide, demoBuf_length_lt, resample_nominal_strict_mono demoBuf 80 25 0 (by decide)
    demoBuf_length_lt⟩

/-- C9: the scaling parameters of the palette-generation stage (stage 2,
`-vf` of build.ts:214-220) and of the paletted-encode stage (stage 3,
`-lavfi` of build.ts:223-232) are byte-identical — both filter chains are
interpolated from the single shared `scale` constant of build.ts:212. -/
theorem stage_scale_params_identical :
    scaleParamOf (paletteArgs.getD 3 "") = scaleParamOf (gifArgs.getD 5 "") ∧
      scaleParamOf (paletteArgs.getD 3 "") = scale ∧
      scale = "scale=256:144:flags=lanczos" := by
  refine ⟨?_, ?_, ?_⟩ <;> decide

/-- A variant whose capture buffer is empty at seal time (no screencast
sample arrived). -/
def emptyVariant : VariantRun :=
  { name := "clockwise", captured := [], lastTimestamp := 100, failingStage := none }

/-- A variant that captures one sample at t = 0, stops at the same instant
(zero-duration session), and whose ffmpeg stages all succeed. -/
def goodVariant : VariantRun :=
  { name := "cover", captured := [⟨some "a", 0⟩], lastTimestamp := 0, failingStage := none }

/-- A variant whose paletted-encode stage (stage 3) exits abnormally. -/
def badStageVariant : VariantRun :=
  { name := "cube", captured := [⟨some "a", 0⟩], lastTimestamp := 0, failingStage := some 3 }

/-- A second healthy variant scheduled after the failing one. -/
def laterVariant : VariantRun :=
  { name := "swipe", captured := [⟨some "a", 0⟩], lastTimestamp := 0, failingStage := none }

/-- The zero-duration healthy variant publishes an (empty) artifact. -/
theorem processVariant_goodVariant :
    processVariant 25 goodVariant = Except.ok ("cover.gif", []) := by
  show Except.ok ("cover.gif", materialize (resample [⟨some "a", 0⟩] 0 25)) = _
  rw [show resample [(⟨some "a", 0⟩ : CaptureData)] 0 25 = [] by
    rw [resample_cons]
    norm_num [frames]]
  rfl

/-- C5 counterexample to the claim as stated: the error raised on an empty
capture buffer is not contained to the variant.  With an empty-buffer
variant followed by a healthy variant, the run ends with the session error
and the healthy variant is never processed — its artifact is absent. -/
theorem emptyBuffer_aborts_run_counterexample :
    runDriver 25 [emptyVariant, goodVariant] = ([], some BuildError.sessionError) ∧
      "cover.gif" ∉ (runDriver 25 [emptyVariant, goodVariant]).1.map Prod.fst := by
  refine ⟨by decide, by decide⟩

/-- C5 (amended): a variant whose capture buffer is empty at seal time
fails with the session error before any resampling is attempted
(`captured[0].timestamp` throws at build.ts:164, before the frame loop),
but the error is not caught anywhere: it propagates out of the driver loop
and aborts the whole run with no outputs, instead of skipping to the next
variant. -/
theorem emptyBuffer_sessionError_aborts_run (fps : ℚ) (v : VariantRun)
    (rest : List VariantRun) (h : v.captured = []) :
    processVariant fps v = Except.error BuildError.sessionError ∧
      runDriver fps (v :: rest) = ([], some BuildError.sessionError) := by
  have hp : processVariant fps v = Except.error BuildError.sessionError := by
    unfold processVariant
    rw [h]
  refine ⟨hp, ?_⟩
  unfold runDriver
  rw [hp]

/-- C5 witness: the empty-buffer abort instantiated on the empty variant
followed by a healthy variant, at 25 fps. -/
theorem emptyBuffer_sessionError_aborts_run_witness :
    emptyVariant.captured = [] ∧
      (processVariant 25 emptyVariant = Except.error BuildError.sessionError ∧
        runDriver 25 (emptyVariant :: [goodVariant]) = ([], some BuildError.sessionError)) :=
  ⟨by decide, emptyBuffer_sessionError_aborts_run 25 emptyVariant [goodVariant] (by decide)⟩

/-- C6 counterexample to the claim as stated: a stage-3 failure in the
middle variant is not caught at the driver boundary.  The run ends with the
stage error, the later healthy variant ("swipe") is never processed and its
artifact is absent; only the artifact of the variant completed before the
failure survives. -/
theorem stageFailure_aborts_run_counterexample :
    runDriver 25 [goodVariant, badStageVariant, laterVariant] =
      ([("cover.gif", [])], some (BuildError.stageError 3)) ∧
      "swipe.gif" ∉
        (runDriver 25 [goodVariant, badStageVariant, laterVariant]).1.map Prod.fst := by
  have h : runDriver 25 [goodVariant, badStageVariant, laterVariant] =
      ([("cover.gif", [])], some (BuildError.stageError 3)) := by
    show (match processVariant 25 goodVariant with
      | Except.error e => ([], some e)
      | Except.ok out =>
        (out :: (runDriver 25 [badStageVariant, laterVariant]).1,
          (runDriver 25 [badStageVariant, laterVariant]).2)) =
      ([("cover.gif", [])], some (BuildError.stageError 3))
    rw [processVariant_goodVariant]
    decide
  refine ⟨h, ?_⟩
  rw [h]
  decide

/-- C6 (amended): the driver has no per-variant error boundary.  When every
variant of a prefix succeeds and the next variant fails, the run returns
exactly the artifacts of the completed prefix (unchanged, in order)
together with the error; the variants after the failing one are never
processed. -/
theorem runDriver_stops_at_first_error (fps : ℚ) (goods : List VariantRun)
    (outs : List (String × List (ℕ × String))) (bad : VariantRun)
    (rest : List VariantRun) (e : BuildError)
    (hg : goods.map (processVariant fps) = outs.map Except.ok)
    (hb : processVariant fps bad = Except.error e) :
    runDriver fps (goods ++ bad :: rest) = (outs, some e) := by
  induction goods generalizing outs with
  | nil =>
    have houts : outs = [] := by
      cases outs with
      | nil => rfl
      | cons o os => simp at hg
    subst houts
    simp only [List.nil_append]
    unfold runDriver
    rw [hb]
  | cons v vs ih =>
    cases outs with
    | nil => simp at hg
    | cons o os =>
      simp only [List.map_cons, List.cons.injEq] at hg
      obtain ⟨hv, hvs⟩ := hg
      simp only [List.cons_append]
      unfold runDriver
      rw [hv, ih os hvs]

/-- C6 witness: the stop-at-first-error law instantiated with one completed
variant, the failing stage-3 variant, and one later variant, at 25 fps. -/
theorem runDriver_stops_at_first_error_witness :
    [goodVariant].map (processVariant 25) = [("cover.gif", ([] : List (ℕ × String)))].map Except.ok ∧
      processVariant 25 badStageVariant = Except.error (BuildError.stageError 3) ∧
      runDriver 25 ([goodVariant] ++ badStageVariant :: [laterVariant]) =
        ([("cover.gif", [])], some (BuildError.stageError 3)) :=
  ⟨by rw [List.map_cons, processVariant_goodVariant]; rfl, by rfl,
    runDriver_stops_at_first_error 25 [goodVariant] [("cover.gif", [])] badStageVariant
      [laterVariant] (BuildError.stageError 3)
      (by rw [List.map_cons, processVariant_goodVariant]; rfl) (by rfl)⟩

/-- An image is written only for frames whose payload is truthy, and it is
tagged with the frame index itself. -/
theorem materializeSample_eq_some (fr : ResampledFrame) (pr : ℕ × String)
    (h : materializeSample fr = some pr) :
    pr.1 = fr.index ∧ dataPresentOpt fr.sourceSample = true := by
  cases hss : fr.sourceSample with
  | none => simp [materializeSample, hss] at h
  | some c =>
    cases hd : c.data with
    | none => simp [materializeSample, hss, hd] at h
    | some d =>
      by_cases he : d.isEmpty
      · simp [materializeSample, hss, hd, he] at h
      · simp only [materializeSample, hss, hd, if_neg he] at h
        obtain rfl : (fr.index, d) = pr := by simpa using h
        exact ⟨rfl, by simp [dataPresentOpt, dataPresent, hss, hd, he]⟩

/-- A frame whose payload is truthy is written, tagged with its index. -/
theorem materializeSample_of_present (fr : ResampledFrame)
    (h : dataPresentOpt fr.sourceSample = true) :
    ∃ d, materializeSample fr = some (fr.index, d) := by
  cases hss : fr.sourceSample with
  | none => simp [dataPresentOpt, hss] at h
  | some c =>
    cases hd : c.data with
    | none => simp [dataPresentOpt, dataPresent, hss, hd] at h
    | some d =>
      have he : d.isEmpty = false := by
        simpa [dataPresentOpt, dataPresent, hss, hd] using h
      exact ⟨d, by simp [materializeSample, hss, hd, he]⟩

/-- C10 (implicit totality): on a non-empty capture buffer every resampled
frame index is mapped to some captured sample — `findFrame` clamps below
and the pushed `Infinity` sentinel caps above, so the lookup is total — and
the materializer writes an image for an index exactly when the selected
sample has a truthy payload: an index is skipped only because its payload
is absent, never because no sample was selected. -/
theorem resample_total_materializer_skips_only_absent (c0 : CaptureData)
    (rest : List CaptureData) (lastTimestamp : ℤ) (fps : ℚ) (i : ℕ)
    (hi : i < (resample (c0 :: rest) lastTimestamp fps).length) :
    ((resample (c0 :: rest) lastTimestamp fps).getD i fallbackFrame).sourceSample.isSome = true ∧
      (i ∈ (materialize (resample (c0 :: rest) lastTimestamp fps)).map Prod.fst ↔
        dataPresentOpt
          ((resample (c0 :: rest) lastTimestamp fps).getD i fallbackFrame).sourceSample = true) := by
  rw [resample_length_cons] at hi
  have hget := resample_getElem c0 rest lastTimestamp fps i hi
  have hgetD : (resample (c0 :: rest) lastTimestamp fps).getD i fallbackFrame =
      { index := i
        nominalTimestampMillis := nominalTimestamp c0.timestamp fps i
        sourceSample := findFrame (c0 :: rest) (nominalTimestamp c0.timestamp fps i) } := by
    rw [List.getD_eq_getElem?_getD, hget, Option.getD_some]
  rw [hgetD]
  constructor
  · rw [findFrame_eq_some_getD]
    rfl
  · constructor
    · intro hmem
      obtain ⟨pr, hpr, hfst⟩ := List.mem_map.mp hmem
      obtain ⟨fr, hfr, hms⟩ := List.mem_filterMap.mp hpr
      obtain ⟨hidx, hpres⟩ := materializeSample_eq_some fr pr hms
      obtain ⟨k, hk, hfrk⟩ := (mem_resample_iff c0 rest lastTimestamp fps fr).mp hfr
      have hfri : fr.index = i := by rw [← hidx, hfst]
      have hki : k = i := by
        have : fr.index = k := by rw [hfrk]
        omega
      subst hki
      rw [hfrk] at hpres
      exact hpres
    · intro hpres
      have hin := (mem_resample_iff c0 rest lastTimestamp fps
        ((resample (c0 :: rest) lastTimestamp fps).getD i fallbackFrame)).mpr ⟨i, hi, hgetD⟩
      rw [← hgetD] at hpres
      obtain ⟨d, hd⟩ := materializeSample_of_present _ hpres
      have hidx2 : ((resample (c0 :: rest) lastTimestamp fps).getD i fallbackFrame).index = i := by
        rw [hgetD]
      rw [hidx2] at hd
      exact List.mem_map.mpr ⟨(i, d), List.mem_filterMap.mpr ⟨_, hin, hd⟩, rfl⟩

/-- The demonstration session has at least one frame. -/
theorem demoBuf_resample_pos : 0 < (resample demoBuf 80 25).length := by
  rw [demoBuf_resample_length]
  decide

/-- C10 witness: totality and the skip condition instantiated on the
two-sample demonstration session at frame index 0. -/
theorem resample_total_materializer_skips_only_absent_witness :
    0 < (resample demoBuf 80 25).length ∧
      (((resample demoBuf 80 25).getD 0 fallbackFrame).sourceSample.isSome = true ∧
        (0 ∈ (materialize (resample demoBuf 80 25)).map Prod.fst ↔
          dataPresentOpt ((resample demoBuf 80 25).getD 0 fallbackFrame).sourceSample = true)) :=
  ⟨demoBuf_resample_pos,
    resample_total_materializer_skips_only_absent ⟨some "a", 0⟩ [⟨some "b", 40⟩] 80 25 0
      demoBuf_resample_pos⟩

end MarpTransitionsGif
